import Mathlib

/-!
Shallow embedding of the LinkedIn Easy Apply automation core:
`question_answerer.py` (answer resolution engine) and `form_filler.py`
(field fill dispatcher and form navigation loop).  Python strings become
`String`, dicts with insertion order become association lists, and
Selenium page state becomes explicit structures over button/field data.
-/

namespace Linkedin

/-! ## String helpers mirroring Python primitives -/

/-- Python `str.lower()` (ASCII case folding, as used by the labels here). -/
def pyLower (s : String) : String :=
  String.mk (s.data.map Char.toLower)

/-- Python `str.strip()`: drop leading and trailing whitespace. -/
def pyStrip (s : String) : String :=
  String.mk (((s.data.dropWhile Char.isWhitespace).reverse.dropWhile Char.isWhitespace).reverse)

/-- Python `str.startswith(pre)`. -/
def pyStartsWith (s pre : String) : Bool :=
  pre.data.isPrefixOf s.data

/-- Helper for `str.split()`: accumulate the current word (reversed) while
scanning; whitespace closes a word, empties are never produced. -/
def pyWordsAux : List Char → List Char → List String
  | [], acc => if acc.isEmpty then [] else [String.mk acc.reverse]
  | c :: cs, acc =>
    if c.isWhitespace then
      if acc.isEmpty then pyWordsAux cs [] else String.mk acc.reverse :: pyWordsAux cs []
    else pyWordsAux cs (c :: acc)

/-- Python `needle in hay` substring membership, on character lists:
true iff `pat` occurs contiguously inside the second list. -/
def subLists (pat : List Char) : List Char → Bool
  | [] => pat.isEmpty
  | c :: rest => pat.isPrefixOf (c :: rest) || subLists pat rest

/-- Python `needle in hay` substring test on strings. -/
def pyIn (needle hay : String) : Bool :=
  subLists needle.toList hay.toList

/-- Python regex word character class `\w` (ASCII): letters, digits, underscore. -/
def isWordChar (c : Char) : Bool :=
  c.isAlphanum || c == '_'

/-- Whether the character at index `i` of `q` is a word character
(out-of-range positions count as non-word, like the edges of the string). -/
def wordishAt (q : List Char) (i : Nat) : Bool :=
  isWordChar (q.getD i ' ')

/-- Python regex `\b`: a word boundary holds at position `i` of `q` iff
exactly one of the two surrounding positions holds a word character. -/
def boundaryAt (q : List Char) (i : Nat) : Bool :=
  ((decide (i ≠ 0)) && wordishAt q (i - 1)) != wordishAt q i

/-- The slice of `q` starting at `i` equals `w`. -/
def sliceEq (q w : List Char) (i : Nat) : Bool :=
  ((q.drop i).take w.length) == w

/-- The pattern `\b<w>\b` matches `q` at position `i`. -/
def wordMatchAt (q w : List Char) (i : Nat) : Bool :=
  boundaryAt q i && boundaryAt q (i + w.length) && sliceEq q w i

/-- `re.search(r"\b" + re.escape(w) + r"\b", q)` for a literal word `w`:
some position of `q` carries a whole-word occurrence of `w`. -/
def reSearchWord (q w : String) : Bool :=
  (List.range (q.toList.length + 1)).any (fun i => wordMatchAt q.toList w.toList i)

/-- Python `str.split()` with no argument: split on whitespace runs,
discarding empty pieces. -/
def pySplitWs (s : String) : List String :=
  pyWordsAux s.data []

/-! ## Configuration data (`config` dict consumed by `QuestionAnswerer.__init__`) -/

/-- `config["personal"]`: a flat dict of personal facts; absent keys are `none`
(Python `dict.get(k, default)` supplies the default at each use site). -/
structure PersonalCfg where
  first_name : Option String := none
  last_name : Option String := none
  email : Option String := none
  phone : Option String := none
  city : Option String := none
  country : Option String := none
  linkedin_profile : Option String := none
  github_url : Option String := none
  portfolio_url : Option String := none
deriving DecidableEq

/-- `config["background"]`. -/
structure BackgroundCfg where
  years_of_experience : Option Int := none
  highest_education : Option String := none
  notice_period_days : Option Int := none
  expected_salary : Option Int := none
  currency : Option String := none
deriving DecidableEq

/-- `config["eligibility"]`. -/
structure EligibilityCfg where
  legally_authorized : Option Bool := none
  require_sponsorship : Option Bool := none
deriving DecidableEq

/-- `config["answers"]`: the rule tables, as ordered association lists
(Python dicts iterate in insertion order, which is observable here). -/
structure AnswersCfg where
  yes_no : List (String × Bool) := []
  numeric : List (String × Int) := []
  star_answers : List (String × String) := []
deriving DecidableEq

/-- The whole configuration visible to `QuestionAnswerer`. -/
structure Config where
  personal : PersonalCfg := {}
  background : BackgroundCfg := {}
  eligibility : EligibilityCfg := {}
  answers : AnswersCfg := {}
deriving DecidableEq

/-- The empty configuration (all keys absent, all rule tables empty). -/
def cfg0 : Config := {}

/-! ## `QuestionAnswerer` -/

/-- `self.yes_no_map`: the yes/no rules with lower-cased keys. -/
def yesNoMap (c : Config) : List (String × Bool) :=
  c.answers.yes_no.map (fun kv => (pyLower kv.1, kv.2))

/-- `self.numeric_map`: the numeric rules with lower-cased keys. -/
def numericMap (c : Config) : List (String × Int) :=
  c.answers.numeric.map (fun kv => (pyLower kv.1, kv.2))

/-- `self.star_map`: the narrative (STAR) rules with lower-cased keys. -/
def starMap (c : Config) : List (String × String) :=
  c.answers.star_answers.map (fun kv => (pyLower kv.1, kv.2))

/-- `question_text.lower().strip()` at the top of `QuestionAnswerer.answer`. -/
def normalizeQuestion (question_text : String) : String :=
  pyStrip (pyLower question_text)

/-- `QuestionAnswerer._lookup_yes_no`. -/
def lookupYesNo (c : Config) (q : String) : Bool :=
  match (yesNoMap c).find? (fun kv => pyIn kv.1 q) with
  | some kv => kv.2
  | none =>
    if pyIn "sponsorship" q || pyIn "visa" q then
      c.eligibility.require_sponsorship.getD false
    else if pyIn "authorized" q || pyIn "eligible" q then
      c.eligibility.legally_authorized.getD true
    else true

/-- `QuestionAnswerer._lookup_numeric`. -/
def lookupNumeric (c : Config) (q : String) : Int :=
  match (numericMap c).find? (fun kv => pyIn kv.1 q) with
  | some kv => kv.2
  | none =>
    if pyIn "experience" q then c.background.years_of_experience.getD 2
    else if pyIn "notice" q then c.background.notice_period_days.getD 0
    else if pyIn "salary" q || pyIn "ctc" q || pyIn "compensation" q then
      c.background.expected_salary.getD 600000
    else 0

/-- `QuestionAnswerer._dropdown_hint`. -/
def dropdownHint (c : Config) (q : String) : String :=
  if pyIn "country" q then c.personal.country.getD "India"
  else if pyIn "currency" q then c.background.currency.getD "INR"
  else if pyIn "education" q || pyIn "degree" q then
    c.background.highest_education.getD "Bachelor"
  else if pyIn "experience" q then toString (c.background.years_of_experience.getD 2)
  else ""

/-- One narrative rule key matches the label `q` when SOME whitespace-delimited
word of the key occurs as a whole word in `q`
(`any(re.search(r"\b" + re.escape(word) + r"\b", q) for word in key.split())`). -/
def starKeyMatches (q key : String) : Bool :=
  (pySplitWs key).any (fun w => reSearchWord q w)

/-- The narrative-rule scan at the top of `QuestionAnswerer._free_text_answer`:
walk the rules in configured order and return the first matching rule's
answer, stripped. -/
def starLookup (rules : List (String × String)) (q : String) : Option String :=
  match rules.find? (fun kv => starKeyMatches q kv.1) with
  | some kv => some (pyStrip kv.2)
  | none => none

/-- The canned cover-letter / motivation paragraph in `_free_text_answer`. -/
def coverLetterText : String :=
  "I am deeply passionate about cybersecurity and incident response. My hands-on experience with SIEM tools and threat detection aligns well with this role and I am eager to contribute to your SOC team."

/-- The generic last-resort paragraph in `_free_text_answer`. -/
def genericFallback : String :=
  "I am a cybersecurity professional with experience in SOC operations, threat detection, and incident response. I am excited about this opportunity and look forward to contributing to your team."

/-- `QuestionAnswerer._free_text_answer`. -/
def freeTextAnswer (c : Config) (q : String) : String :=
  match starLookup (starMap c) q with
  | some a => a
  | none =>
    if pyIn "first name" q then c.personal.first_name.getD ""
    else if pyIn "last name" q || pyIn "surname" q then c.personal.last_name.getD ""
    else if pyIn "email" q then c.personal.email.getD ""
    else if pyIn "phone" q || pyIn "mobile" q then c.personal.phone.getD ""
    else if pyIn "city" q then c.personal.city.getD "Bangalore"
    else if pyIn "linkedin" q then c.personal.linkedin_profile.getD ""
    else if pyIn "github" q then c.personal.github_url.getD ""
    else if pyIn "portfolio" q || pyIn "website" q then c.personal.portfolio_url.getD ""
    else if pyIn "salary" q || pyIn "ctc" q || pyIn "compensation" q then
      toString (c.background.expected_salary.getD 600000)
    else if pyIn "notice" q then toString (c.background.notice_period_days.getD 0)
    else if pyIn "experience" q then toString (c.background.years_of_experience.getD 2)
    else if pyIn "cover letter" q || pyIn "motivation" q then coverLetterText
    else genericFallback

/-- `QuestionAnswerer.answer(question_text, field_type)`. -/
def answer (c : Config) (question_text : String) (field_type : String) : String :=
  let q := normalizeQuestion question_text
  if field_type = "boolean" then (if lookupYesNo c q then "Yes" else "No")
  else if field_type = "numeric" then toString (lookupNumeric c q)
  else if field_type = "dropdown" then dropdownHint c q
  else freeTextAnswer c q

/-- `QuestionAnswerer._is_yes_no_question`. -/
def isYesNoQuestion (q : String) : Bool :=
  ["are ", "is ", "do ", "will ", "have ", "can ", "were ", "did "].any
    (fun s => pyStartsWith q s)

/-- `QuestionAnswerer.best_dropdown_option(question_text, options)`.
Python's sequential `if` blocks each contain a `for ... return`; a block whose
loop finds nothing falls through to the next block, modelled by chained
`Option` matches. -/
def bestDropdownOption (c : Config) (question_text : String) (options : List String) : String :=
  match options with
  | [] => ""
  | o0 :: rest =>
    let opts := o0 :: rest
    let q := pyLower question_text
    if isYesNoQuestion q then
      let want := if lookupYesNo c q then "Yes" else "No"
      match opts.find? (fun opt => pyIn (pyLower want) (pyLower opt)) with
      | some opt => opt
      | none => o0
    else
      let eduPick : Option String :=
        if pyIn "education" q || pyIn "degree" q then
          let target := pyLower (c.background.highest_education.getD "")
          opts.find? (fun opt => (target != "") && pyIn target (pyLower opt))
        else none
      let expPick : Option String :=
        if pyIn "experience" q then
          let years := toString (c.background.years_of_experience.getD 2)
          opts.find? (fun opt => pyIn years opt)
        else none
      let countryPick : Option String :=
        if pyIn "country" q then
          let country := pyLower (c.personal.country.getD "India")
          opts.find? (fun opt => pyIn country (pyLower opt))
        else none
      let currencyPick : Option String :=
        if pyIn "currency" q then
          let currency := pyLower (c.background.currency.getD "INR")
          opts.find? (fun opt => pyIn currency (pyLower opt))
        else none
      match eduPick with
      | some opt => opt
      | none =>
        match expPick with
        | some opt => opt
        | none =>
          match countryPick with
          | some opt => opt
          | none =>
            match currencyPick with
            | some opt => opt
            | none => o0

/-! ## `FormFiller`: navigation probes over the page's buttons -/

/-- One `<button>` on the page: `text` is its XPath string-value (all contained
text), `displayed`/`enabled` its Selenium interactability state. -/
structure Button where
  text : String
  displayed : Bool
  enabled : Bool
deriving DecidableEq

/-- `driver.find_element(By.XPATH, "//button[contains(., t)]")`: the first
button in document order whose text contains `t`, or `none`
(`NoSuchElementException`). -/
def findButton (buttons : List Button) (t : String) : Option Button :=
  buttons.find? (fun b => pyIn t b.text)

/-- One arm of the probe loops in `_try_submit` / `_try_next` / `_try_review`:
find the first button containing `t`; if it is displayed and enabled it is
clicked (returned), otherwise nothing happens for this text. -/
def probeOne (buttons : List Button) (t : String) : Option Button :=
  match findButton buttons t with
  | some b => if b.displayed && b.enabled then some b else none
  | none => none

/-- The `for text in (...)` probe loop: try each text in order, returning the
first clicked button. -/
def tryTexts (buttons : List Button) : List String → Option Button
  | [] => none
  | t :: ts =>
    match probeOne buttons t with
    | some b => some b
    | none => tryTexts buttons ts

/-- `FormFiller._try_submit`: probe texts `"Submit application"`, `"Submit"`. -/
def trySubmitButtons (buttons : List Button) : Option Button :=
  tryTexts buttons ["Submit application", "Submit"]

/-- `FormFiller._try_next`: probe texts `"Next"`, `"Continue"`, `"Review"`. -/
def tryNextButtons (buttons : List Button) : Option Button :=
  tryTexts buttons ["Next", "Continue", "Review"]

/-- `FormFiller._try_review`: probe the single text `"Review"`. -/
def tryReviewButtons (buttons : List Button) : Option Button :=
  probeOne buttons "Review"

/-- The navigation decision taken by one step of `fill_application`,
recording which button (if any) is clicked and by which probe. -/
inductive NavAction where
  | submit (b : Button)
  | next (b : Button)
  | review (b : Button)
  | stuck
deriving DecidableEq

/-- Lines 55-61 of `fill_application`: `_try_submit`, then `_try_next`, then
`_try_review`; the first probe that clicks ends the step. -/
def decideAction (buttons : List Button) : NavAction :=
  match trySubmitButtons buttons with
  | some b => NavAction.submit b
  | none =>
    match tryNextButtons buttons with
    | some b => NavAction.next b
    | none =>
      match tryReviewButtons buttons with
      | some b => NavAction.review b
      | none => NavAction.stuck

/-! ## The driving loop `fill_application` -/

/-- The browser surface as seen by the loop, over an abstract page-state type:
filling the current page and the three navigation probes, each probe returning
the successor state when it clicked and `none` when it failed. -/
structure Surface (S : Type) where
  fillPage : S → S
  trySubmit : S → Option S
  tryNext : S → Option S
  tryReview : S → Option S

/-- `max_steps = 15` in `FormFiller.fill_application`. -/
def MAX_STEPS : Nat := 15

/-- The body of `fill_application`'s `for step in range(max_steps)` loop:
`fuel` is the number of loop iterations still allowed, `steps` the number of
iterations already executed; the result is (submitted?, iterations executed). -/
def fillApplicationAux {S : Type} (surf : Surface S) : Nat → S → Nat → Bool × Nat
  | 0, _, steps => (false, steps)
  | Nat.succ fuel, s, steps =>
    let s1 := surf.fillPage s
    match surf.trySubmit s1 with
    | some _ => (true, steps + 1)
    | none =>
      match surf.tryNext s1 with
      | some s2 => fillApplicationAux surf fuel s2 (steps + 1)
      | none =>
        match surf.tryReview s1 with
        | some s2 => fillApplicationAux surf fuel s2 (steps + 1)
        | none => (false, steps + 1)

/-- `FormFiller.fill_application`: returns whether the application was
submitted, together with the number of loop steps executed. -/
def fillApplication {S : Type} (surf : Surface S) (s : S) : Bool × Nat :=
  fillApplicationAux surf MAX_STEPS s 0

/-! ## Field filling (`_fill_text_inputs`, `_fill_textareas`, `_fill_radios`) -/

/-- A text-like form control: Selenium visibility/enabledness, its current
`value` attribute (absent attribute read as `""`), and its resolved label. -/
structure TextField where
  displayed : Bool
  enabled : Bool
  value : String
  label : String
deriving DecidableEq

/-- The per-field body of `FormFiller._fill_text_inputs`: skip non-interactable
fields, skip fields whose trimmed value is non-empty, else resolve the label,
compute the text answer, and write it when it is non-empty. -/
def fillTextInput (c : Config) (f : TextField) : TextField :=
  if !(f.displayed && f.enabled) then f
  else if pyStrip f.value != "" then f
  else
    let ans := answer c f.label "text"
    if ans != "" then { f with value := ans } else f

/-- The per-field body of `FormFiller._fill_textareas` (same policy as text
inputs). -/
def fillTextarea (c : Config) (f : TextField) : TextField :=
  if !(f.displayed && f.enabled) then f
  else if pyStrip f.value != "" then f
  else
    let ans := answer c f.label "text"
    if ans != "" then { f with value := ans } else f

/-- One `input[type=radio]` member of a radio group: its selection state, the
text of its `following-sibling::label` (empty when that label is missing),
whether a click on it succeeds, and the label `_get_label_for` resolves for it. -/
structure Radio where
  selected : Bool
  sibLabel : String
  interactable : Bool
  label : String
deriving DecidableEq

/-- `answer.lower() in sib_label.lower() or sib_label.lower() in answer.lower()`:
the member's adjacent text overlaps the desired answer as a case-insensitive
substring in either direction. -/
def radioMatches (ans : String) (r : Radio) : Bool :=
  pyIn (pyLower ans) (pyLower r.sibLabel) || pyIn (pyLower r.sibLabel) (pyLower ans)

/-- The inner `for radio in radio_list` loop of `_fill_radios`: the clicked
member is the first one that matches the desired answer and whose click does
not raise `ElementNotInteractableException`. -/
def clickTarget (ans : String) : List Radio → Option Radio
  | [] => none
  | r :: rs =>
    if radioMatches ans r && r.interactable then some r else clickTarget ans rs

/-- The per-group body of `FormFiller._fill_radios`: skip the group when any
member is already selected; otherwise resolve the label from the first member,
compute the boolean answer, and click the first matching member (if any).
Returns the clicked member, `none` when the group is left untouched. -/
def fillRadios (c : Config) (radios : List Radio) : Option Radio :=
  match radios with
  | [] => none
  | r0 :: rest =>
    if (r0 :: rest).any (fun r => r.selected) then none
    else clickTarget (answer c r0.label "boolean") (r0 :: rest)

/-! ## Theorems -/

set_option maxRecDepth 8000

/-- C1 counterexample: with the narrative rule table `[("team leadership", "A")]`
the label "Describe your team" receives the answer "A" although the key's word
"leadership" does not occur (as a whole word or at all) in the lower-cased
label — the scan fires when ANY word of the key matches, not every word. -/
theorem star_every_word_counterexample :
    answer { answers := { star_answers := [("team leadership", "A")] } }
        "Describe your team" "text" = "A"
    ∧ reSearchWord (normalizeQuestion "Describe your team") "leadership" = false := by
  decide

/-- C1 (amended): a narrative rule's answer is returned only if SOME
whitespace-delimited word of the rule's key occurs as a whole word in the
lower-cased label; the first matching rule in configured order wins and its
text is returned trimmed; a rule keyed "art" never matches the label
"Please describe your start date" (that label falls through to the generic
fallback). -/
theorem star_narrative_matching :
    (∀ (rules : List (String × String)) (q a : String),
        starLookup rules q = some a →
        ∃ kv, kv ∈ rules ∧ starKeyMatches q kv.1 = true ∧ a = pyStrip kv.2)
    ∧ (∀ (kv : String × String) (rules : List (String × String)) (q : String),
        starLookup (kv :: rules) q =
          if starKeyMatches q kv.1 then some (pyStrip kv.2) else starLookup rules q)
    ∧ starKeyMatches "please describe your start date" "art" = false
    ∧ answer { answers := { star_answers := [("art", "ArtAnswer")] } }
        "Please describe your start date" "text" = genericFallback := by
  refine ⟨?_, ?_, by decide, by decide⟩
  · intro rules q a h
    unfold starLookup at h
    rcases hf : rules.find? (fun kv => starKeyMatches q kv.1) with _ | kv
    · rw [hf] at h
      simp at h
    · rw [hf] at h
      simp at h
      have hp : starKeyMatches q kv.1 = true := by simpa using List.find?_some hf
      exact ⟨kv, List.mem_of_find?_eq_some hf, hp, h.symm⟩
  · intro kv rules q
    unfold starLookup
    by_cases hm : starKeyMatches q kv.1
    · simp [List.find?_cons, hm]
    · simp [List.find?_cons, hm]

/-- C1 witness: a one-rule table whose key's first word occurs whole-word in
the label yields that rule's trimmed answer. -/
theorem star_narrative_matching_witness :
    ∃ kv, kv ∈ [("tell me about yourself", " I am a pro ")] ∧
      starKeyMatches "tell me about yourself" kv.1 = true ∧
      "I am a pro" = pyStrip kv.2 :=
  star_narrative_matching.1 [("tell me about yourself", " I am a pro ")]
    "tell me about yourself" "I am a pro" (by decide)

/-- C2: on a page whose only button is a displayed, enabled button with text
exactly "Review", the advance probe (`_try_next`) matches and clicks it — the
claim (and the repository's own test `TestTryNext.test_does_not_match_review`)
say the advance search must never match a Review-only button; the dedicated
review probe matches it as well. -/
theorem tryNext_matches_review_only :
    tryNextButtons [{ text := "Review", displayed := true, enabled := true }]
      = some { text := "Review", displayed := true, enabled := true }
    ∧ tryReviewButtons [{ text := "Review", displayed := true, enabled := true }]
      = some { text := "Review", displayed := true, enabled := true } := by
  decide

/-- C3: for every configuration, label and non-empty option list,
`best_dropdown_option` returns one of the offered options; with options
`["Option A", "Option B"]` and an unrecognized label it returns "Option A". -/
theorem bestDropdownOption_mem :
    (∀ (c : Config) (label o0 : String) (rest : List String),
        bestDropdownOption c label (o0 :: rest) ∈ o0 :: rest)
    ∧ bestDropdownOption cfg0 "unrecognized label" ["Option A", "Option B"]
        = "Option A" := by
  refine ⟨?_, by decide⟩
  intro c label o0 rest
  simp only [bestDropdownOption]
  split
  · split
    · rename_i heq
      exact List.mem_of_find?_eq_some heq
    · exact List.mem_cons_self o0 rest
  · repeat' split
    all_goals first
      | exact List.mem_cons_self o0 rest
      | (rename_i heq
         split at heq
         · exact List.mem_of_find?_eq_some heq
         · exact absurd heq (by simp))

/-- C4: on every surface where the submit, advance and review probes all
always fail, `fill_application` returns failure and executes at most
`MAX_STEPS` loop steps (in fact exactly one, since the first stuck step
breaks out of the loop). -/
theorem fillApplication_stuck {S : Type} (surf : Surface S) (s : S)
    (hs : ∀ t, surf.trySubmit t = none) (hn : ∀ t, surf.tryNext t = none)
    (hr : ∀ t, surf.tryReview t = none) :
    (fillApplication surf s).1 = false ∧ (fillApplication surf s).2 ≤ MAX_STEPS := by
  have key : ∀ (fuel : Nat) (t : S) (steps : Nat),
      fillApplicationAux surf (fuel + 1) t steps = (false, steps + 1) := by
    intro fuel t steps
    simp [fillApplicationAux, hs, hn, hr]
  have h15 : fillApplication surf s = (false, 1) := by
    show fillApplicationAux surf MAX_STEPS s 0 = (false, 1)
    have hm : MAX_STEPS = 14 + 1 := rfl
    rw [hm, key]
  rw [h15]
  exact ⟨rfl, by decide⟩

/-- A concrete surface (over the trivial page state) on which every probe
always fails. -/
def stuckUnitSurface : Surface Unit :=
  { fillPage := id
    trySubmit := fun _ => none
    tryNext := fun _ => none
    tryReview := fun _ => none }

/-- C4 witness: on the concrete always-stuck surface the loop returns failure
within the step bound. -/
theorem fillApplication_stuck_witness :
    (fillApplication stuckUnitSurface ()).1 = false
    ∧ (fillApplication stuckUnitSurface ()).2 ≤ MAX_STEPS :=
  fillApplication_stuck stuckUnitSurface () (fun _ => rfl) (fun _ => rfl) (fun _ => rfl)

/-- C5 counterexample: the page holds a non-clickable decoy button whose text
contains "Submit" ("Submitted", displayed but disabled) ahead of a clickable
"Submit" button and a clickable "Next" button.  A clickable "Submit" control
is present, yet the step clicks the advance ("Next") control: the submit probe
only examines the FIRST document-order button containing each probe text. -/
theorem submit_priority_counterexample :
    decideAction [
      { text := "Submitted", displayed := true, enabled := false },
      { text := "Submit", displayed := true, enabled := true },
      { text := "Next", displayed := true, enabled := true }]
      = NavAction.next { text := "Next", displayed := true, enabled := true }
    ∧ (([
      { text := "Submitted", displayed := true, enabled := false },
      { text := "Submit", displayed := true, enabled := true },
      { text := "Next", displayed := true, enabled := true }] : List Button).any
        (fun b => b.text == "Submit" && b.displayed && b.enabled)) = true := by
  decide

/-- C5 (amended): actions are attempted in strict priority order submit,
advance, review — whenever the submit probe succeeds (the first button
containing "Submit application", or else the first containing "Submit", is
displayed and enabled), that button is clicked and the advance probe is never
consulted; in particular when the page's buttons are exactly a clickable
"Submit" and a clickable "Next", submit is clicked and advance is not. -/
theorem submit_priority_amended :
    (∀ (buttons : List Button) (b : Button),
        trySubmitButtons buttons = some b →
        decideAction buttons = NavAction.submit b)
    ∧ decideAction [{ text := "Submit", displayed := true, enabled := true },
        { text := "Next", displayed := true, enabled := true }]
        = NavAction.submit { text := "Submit", displayed := true, enabled := true } := by
  refine ⟨?_, by decide⟩
  intro buttons b h
  unfold decideAction
  rw [h]

/-- C5 witness: a page with a single clickable "Submit application" button is
submitted by the step. -/
theorem submit_priority_amended_witness :
    decideAction [{ text := "Submit application", displayed := true, enabled := true }]
      = NavAction.submit { text := "Submit application", displayed := true, enabled := true } :=
  submit_priority_amended.1 _ _ (by decide)

/-- C6: a boolean-kind question is always answered exactly "Yes" or "No"; when
no configured yes/no rule's (lower-cased) keyword is a substring of the
normalized label, a label containing "sponsorship" or "visa" yields
`eligibility.require_sponsorship` (absent: false), otherwise a label containing
"authorized" or "eligible" yields `eligibility.legally_authorized` (absent:
true), and any other label defaults to "Yes"; in particular with
`require_sponsorship = false` and no matching rule,
`answer("Will you require sponsorship?", boolean) = "No"`. -/
theorem boolean_answer_spec :
    (∀ (c : Config) (label : String),
        answer c label "boolean" = "Yes" ∨ answer c label "boolean" = "No")
    ∧ (∀ (c : Config) (label : String),
        (yesNoMap c).find? (fun kv => pyIn kv.1 (normalizeQuestion label)) = none →
        (pyIn "sponsorship" (normalizeQuestion label)
          || pyIn "visa" (normalizeQuestion label)) = true →
        answer c label "boolean" =
          (if c.eligibility.require_sponsorship.getD false then "Yes" else "No"))
    ∧ (∀ (c : Config) (label : String),
        (yesNoMap c).find? (fun kv => pyIn kv.1 (normalizeQuestion label)) = none →
        (pyIn "sponsorship" (normalizeQuestion label)
          || pyIn "visa" (normalizeQuestion label)) = false →
        (pyIn "authorized" (normalizeQuestion label)
          || pyIn "eligible" (normalizeQuestion label)) = true →
        answer c label "boolean" =
          (if c.eligibility.legally_authorized.getD true then "Yes" else "No"))
    ∧ (∀ (c : Config) (label : String),
        (yesNoMap c).find? (fun kv => pyIn kv.1 (normalizeQuestion label)) = none →
        (pyIn "sponsorship" (normalizeQuestion label)
          || pyIn "visa" (normalizeQuestion label)) = false →
        (pyIn "authorized" (normalizeQuestion label)
          || pyIn "eligible" (normalizeQuestion label)) = false →
        answer c label "boolean" = "Yes")
    ∧ answer { eligibility := { require_sponsorship := some false } }
        "Will you require sponsorship?" "boolean" = "No" := by
  refine ⟨?_, ?_, ?_, ?_, by decide⟩
  · intro c label
    by_cases h : lookupYesNo c (normalizeQuestion label)
    · left
      simp [answer, h]
    · right
      simp [answer, h]
  · intro c label hfind hkw
    simp [answer, lookupYesNo, hfind, hkw]
  · intro c label hfind hno hkw
    simp [answer, lookupYesNo, hfind, hno, hkw]
  · intro c label hfind hno hno2
    simp [answer, lookupYesNo, hfind, hno, hno2]

/-- C6 witness: an unruled label containing "visa", with sponsorship not
required, is answered "No". -/
theorem boolean_answer_spec_witness :
    answer { eligibility := { require_sponsorship := some false } }
        "Do you need a visa?" "boolean" = "No" :=
  (boolean_answer_spec.2.1 { eligibility := { require_sponsorship := some false } }
    "Do you need a visa?" (by decide) (by decide)).trans (by decide)

/-- C7: the text-fill policy is idempotent per field — a short-text or
long-text field whose current value is non-empty after trimming is left
unchanged by the fill pass (so a second pass never alters an already-filled
field). -/
theorem textfill_idempotent (c : Config) (f : TextField) (h : pyStrip f.value ≠ "") :
    fillTextInput c f = f ∧ fillTextarea c f = f := by
  have hb : (pyStrip f.value != "") = true := by simpa using h
  constructor
  · unfold fillTextInput
    split
    · rfl
    · simp [hb]
  · unfold fillTextarea
    split
    · rfl
    · simp [hb]

/-- C7 witness: a concrete already-filled field is unchanged. -/
theorem textfill_idempotent_witness :
    fillTextInput cfg0 { displayed := true, enabled := true, value := "John", label := "First name" }
      = { displayed := true, enabled := true, value := "John", label := "First name" }
    ∧ fillTextarea cfg0 { displayed := true, enabled := true, value := "John", label := "First name" }
      = { displayed := true, enabled := true, value := "John", label := "First name" } :=
  textfill_idempotent cfg0
    { displayed := true, enabled := true, value := "John", label := "First name" }
    (by decide)

/-- Helper for C8: the clicked radio is the first member that matches the
desired answer and is interactable. -/
theorem clickTarget_eq_some (ans : String) :
    ∀ (radios : List Radio) (r : Radio), clickTarget ans radios = some r →
      r ∈ radios ∧ radioMatches ans r = true ∧ r.interactable = true := by
  intro radios
  induction radios with
  | nil =>
    intro r h
    simp [clickTarget] at h
  | cons a as ih =>
    intro r h
    unfold clickTarget at h
    split at h
    · rename_i hc
      cases h
      simp only [Bool.and_eq_true] at hc
      exact ⟨List.mem_cons_self a as, hc.1, hc.2⟩
    · have := ih r h
      exact ⟨List.mem_cons_of_mem a this.1, this.2.1, this.2.2⟩

/-- Helper for C8: when no member matches the desired answer, nothing is
clicked. -/
theorem clickTarget_eq_none (ans : String) :
    ∀ (radios : List Radio), (∀ r ∈ radios, radioMatches ans r = false) →
      clickTarget ans radios = none := by
  intro radios
  induction radios with
  | nil => intro _; rfl
  | cons a as ih =>
    intro h
    unfold clickTarget
    rw [h a (List.mem_cons_self a as)]
    simp only [Bool.false_and, if_neg]
    exact ih (fun r hr => h r (List.mem_cons_of_mem a hr))

/-- C8: for every radio group — if any member is already selected the group is
skipped; any clicked member belongs to the group, its adjacent text overlaps
the desired boolean answer (computed from the first member's label) as a
case-insensitive either-direction substring, and its click succeeded; if no
member's adjacent text so overlaps, no member is clicked. -/
theorem fillRadios_spec (c : Config) (r0 : Radio) (rest : List Radio) :
    ((r0 :: rest).any (fun r => r.selected) = true →
        fillRadios c (r0 :: rest) = none)
    ∧ (∀ r, fillRadios c (r0 :: rest) = some r →
        r ∈ r0 :: rest
          ∧ radioMatches (answer c r0.label "boolean") r = true
          ∧ r.interactable = true)
    ∧ ((∀ r ∈ r0 :: rest, radioMatches (answer c r0.label "boolean") r = false) →
        fillRadios c (r0 :: rest) = none) := by
  refine ⟨?_, ?_, ?_⟩
  · intro hsel
    simp [fillRadios, hsel]
  · intro r h
    simp only [fillRadios] at h
    split at h
    · exact absurd h (by simp)
    · exact clickTarget_eq_some _ _ r h
  · intro hnone
    simp only [fillRadios]
    split
    · rfl
    · exact clickTarget_eq_none _ _ hnone

/-- C8 witness: a group with a selected member is skipped, and a group whose
only member's adjacent text does not overlap the desired answer is left
untouched. -/
theorem fillRadios_spec_witness :
    fillRadios cfg0
        [{ selected := true, sibLabel := "Yes", interactable := true, label := "L" }] = none
    ∧ fillRadios cfg0
        [{ selected := false, sibLabel := "Maybe", interactable := true, label := "L" }] = none :=
  ⟨(fillRadios_spec cfg0
      { selected := true, sibLabel := "Yes", interactable := true, label := "L" } []).1
      (by decide),
   (fillRadios_spec cfg0
      { selected := false, sibLabel := "Maybe", interactable := true, label := "L" } []).2.2
      (by decide)⟩

/-- C9: for a numeric-kind question with no matching configured numeric rule, a
label containing "experience" yields `background.years_of_experience` (absent:
2), else one containing "notice" yields `background.notice_period_days`
(absent: 0), else one containing "salary"/"ctc"/"compensation" yields
`background.expected_salary` (absent: 600000), and any other label yields 0 —
each rendered as the number's string form; in particular with
`years_of_experience = 3` the experience question is answered "3". -/
theorem numeric_answer_spec :
    (∀ (c : Config) (label : String),
        (numericMap c).find? (fun kv => pyIn kv.1 (normalizeQuestion label)) = none →
        pyIn "experience" (normalizeQuestion label) = true →
        answer c label "numeric" = toString (c.background.years_of_experience.getD 2))
    ∧ (∀ (c : Config) (label : String),
        (numericMap c).find? (fun kv => pyIn kv.1 (normalizeQuestion label)) = none →
        pyIn "experience" (normalizeQuestion label) = false →
        pyIn "notice" (normalizeQuestion label) = true →
        answer c label "numeric" = toString (c.background.notice_period_days.getD 0))
    ∧ (∀ (c : Config) (label : String),
        (numericMap c).find? (fun kv => pyIn kv.1 (normalizeQuestion label)) = none →
        pyIn "experience" (normalizeQuestion label) = false →
        pyIn "notice" (normalizeQuestion label) = false →
        (pyIn "salary" (normalizeQuestion label) || pyIn "ctc" (normalizeQuestion label)
          || pyIn "compensation" (normalizeQuestion label)) = true →
        answer c label "numeric" = toString (c.background.expected_salary.getD 600000))
    ∧ (∀ (c : Config) (label : String),
        (numericMap c).find? (fun kv => pyIn kv.1 (normalizeQuestion label)) = none →
        pyIn "experience" (normalizeQuestion label) = false →
        pyIn "notice" (normalizeQuestion label) = false →
        (pyIn "salary" (normalizeQuestion label) || pyIn "ctc" (normalizeQuestion label)
          || pyIn "compensation" (normalizeQuestion label)) = false →
        answer c label "numeric" = "0")
    ∧ answer { background := { years_of_experience := some 3 } }
        "How many years of experience do you have?" "numeric" = "3" := by
  refine ⟨?_, ?_, ?_, ?_, by decide⟩
  · intro c label hfind hkw
    simp [answer, lookupNumeric, hfind, hkw]
  · intro c label hfind hno hkw
    simp [answer, lookupNumeric, hfind, hno, hkw]
  · intro c label hfind hno hno2 hkw
    simp [answer, lookupNumeric, hfind, hno, hno2, hkw]
  · intro c label hfind hno hno2 hno3
    simp [answer, lookupNumeric, hfind, hno, hno2, hno3]
    rfl

/-- C9 witness: an unruled label containing "experience" is answered with the
profile's years of experience, rendered as a string. -/
theorem numeric_answer_spec_witness :
    answer { background := { years_of_experience := some 7 } }
        "Total experience?" "numeric" = "7" :=
  (numeric_answer_spec.1 { background := { years_of_experience := some 7 } }
    "Total experience?" (by decide) (by decide)).trans (by decide)

/-- C10 (implicit): `answer(label, text)` can return the empty string — with an
empty profile, a label containing "first name" (or "email") returns the
profile lookup's empty default rather than the generic paragraph — and the
text-fill dispatcher then writes nothing, leaving such a field empty. -/
theorem empty_text_answer :
    answer cfg0 "First Name" "text" = ""
    ∧ answer cfg0 "Email" "text" = ""
    ∧ fillTextInput cfg0 { displayed := true, enabled := true, value := "", label := "First Name" }
        = { displayed := true, enabled := true, value := "", label := "First Name" } := by
  decide

end Linkedin
